import Mathlib

/-!
# Verification of the statement/transaction import pipeline

Shallow embedding of the upload/import subsystem of the expense-tracker
repository (`backend/finance/services/upload_service.py`,
`backend/finance/models/uploads.py`, `backend/finance/models/transactions.py`,
`backend/finance/views/upload_views.py`).

Modelling conventions:
* Python `Decimal` values are modelled as `Dec` (an exact scaled integer
  `mant / 10 ^ exp`, the same representation `Decimal` uses); `Dec.eqv` /
  `Dec.lt` are the numeric comparisons `Decimal.__eq__` / `__lt__` and the
  database's numeric column comparisons.  Mixed `Decimal`/`float`
  arithmetic, which `decimal` refuses with `TypeError`, is modelled by the
  raising operation returning `none`.
* `datetime.date` is modelled as `PDate` (year/month/day) with
  `PDate.toDays` giving the proleptic-Gregorian day number, so that
  `(d1 - d2).days` is the difference of `toDays`.
* File bytes are modelled as `String` (the inputs relevant here are ASCII
  text); `len(file_content)` is the string length.
* Django rows are modelled as records held in lists inside a `DB` structure;
  `objects.create` appends, `save` on a fetched row is an in-place update,
  `filter(...).exists()` is `List.any`.
* The database clock (`timezone.now()`) is an explicit `now : Nat` parameter.
* Exceptions are modelled by `Option`; the service's per-candidate
  `try/except` and the session-level `try/except` are the explicit
  alternative branches of the corresponding functions.
-/

namespace ExpanseTracker

/-! ## Basic character/string helpers (executable models of the Python
string operations used by the service: `strip`, `replace`, `lower`,
`startswith`, `in`, `split`). -/

def isSpaceChar (c : Char) : Bool :=
  c = ' ' ∨ c = '\t' ∨ c = '\n' ∨ c = '\r'

/-- Python `str.strip()` on a character list. -/
def trimChars (cs : List Char) : List Char :=
  ((cs.dropWhile isSpaceChar).reverse.dropWhile isSpaceChar).reverse

/-- Python `str.strip()`. -/
def pyStrip (s : String) : String :=
  String.mk (trimChars s.data)

/-- Python `s.replace(c, '')` for a single character (removal). -/
def removeChar (c : Char) (s : String) : String :=
  String.mk (s.data.filter (fun x => x ≠ c))

/-- Python `str.lower()` (ASCII case folding suffices for our inputs). -/
def pyLower (s : String) : String :=
  String.mk (s.data.map Char.toLower)

/-- Does `pat` occur as a contiguous prefix of `s` (character lists)? -/
def leadsWith : List Char → List Char → Bool
  | [], _ => true
  | _ :: _, [] => false
  | p :: ps, c :: cs => p = c && leadsWith ps cs

/-- Does `pat` occur as a contiguous sublist of `s`?  Python `pat in s`. -/
def occursIn (pat : List Char) : List Char → Bool
  | [] => pat.isEmpty
  | c :: cs => leadsWith pat (c :: cs) || occursIn pat cs

/-- Python `pat in s` on strings. -/
def strContainsSub (s pat : String) : Bool :=
  occursIn pat.data s.data

/-- Python `s.startswith(pat)`. -/
def strStartsWith (s pat : String) : Bool :=
  leadsWith pat.data s.data

/-- Python `s.endswith(pat)`. -/
def strEndsWith (s pat : String) : Bool :=
  leadsWith pat.data.reverse s.data.reverse

/-- Split a character list on a separator character (Python `str.split(sep)`
for a one-character separator; also the row/field splitting of the simple
unquoted CSV inputs handled by `csv.DictReader` in this service). -/
def splitOnChar (sep : Char) (cs : List Char) : List (List Char) :=
  cs.foldr
    (fun c acc =>
      if c = sep then [] :: acc
      else
        match acc with
        | g :: gs => (c :: g) :: gs
        | [] => [[c]])
    [[]]

def splitString (sep : Char) (s : String) : List String :=
  (splitOnChar sep s.data).map String.mk

/-! ## Dates -/

/-- A calendar date (`datetime.date`). -/
structure PDate where
  year : Nat
  month : Nat
  day : Nat
deriving DecidableEq, Repr

def isLeapYear (y : Nat) : Bool :=
  (y % 4 = 0 && y % 100 ≠ 0) || y % 400 = 0

def daysInMonth (y m : Nat) : Nat :=
  if m = 2 then (if isLeapYear y then 29 else 28)
  else if m = 4 ∨ m = 6 ∨ m = 9 ∨ m = 11 then 30
  else 31

/-- `datetime.date` range/validity check (year 1..9999, valid month/day). -/
def isValidDate (y m d : Nat) : Bool :=
  1 ≤ y && y ≤ 9999 && 1 ≤ m && m ≤ 12 && 1 ≤ d && d ≤ daysInMonth y m

/-- Proleptic-Gregorian day number (civil-days algorithm); differences of
`toDays` equal Python's `(d1 - d2).days`. -/
def PDate.toDays (dt : PDate) : Int :=
  let y : Int := if dt.month ≤ 2 then (dt.year : Int) - 1 else (dt.year : Int)
  let era : Int := (if 0 ≤ y then y else y - 399) / 400
  let yoe : Int := y - era * 400
  let mp : Int := ((dt.month : Int) + 9) % 12
  let doy : Int := (153 * mp + 2) / 5 + (dt.day : Int) - 1
  let doe : Int := yoe * 365 + yoe / 4 - yoe / 100 + doy
  era * 146097 + doe - 719468

/-- `abs((d1 - d2).days)`. -/
def dateDiffDays (d1 d2 : PDate) : Nat :=
  (d1.toDays - d2.toDays).natAbs

/-! ## `strptime` model for the eight formats tried by `_parse_date` -/

/-- One directive of a `strptime` format string: a 4-digit year (`%Y`),
a 2-digit year (`%y`), month (`%m`), day (`%d`), or a literal character. -/
inductive DTok where
  | y4
  | y2
  | mM
  | dD
  | lit (c : Char)
deriving DecidableEq, Repr

/-- Greedily take up to `max` leading digits. -/
def takeDigits : Nat → List Char → List Char × List Char
  | 0, cs => ([], cs)
  | _ + 1, [] => ([], [])
  | n + 1, c :: cs =>
    if c.isDigit then
      let (ds, rest) := takeDigits n cs
      (c :: ds, rest)
    else
      ([], c :: cs)

def digitsToNat (ds : List Char) : Nat :=
  ds.foldl (fun acc c => acc * 10 + (c.toNat - '0'.toNat)) 0

/-- Partial year/month/day collected while matching a format. -/
structure DParts where
  y : Option Nat
  m : Option Nat
  d : Option Nat
deriving DecidableEq, Repr

/-- Match one `strptime`-style format against the remaining characters
(`strptime` requires the whole string to be consumed). -/
def matchFmt : List DTok → List Char → DParts → Option DParts
  | [], [], p => some p
  | [], _ :: _, _ => none
  | .lit c :: toks, x :: xs, p => if x = c then matchFmt toks xs p else none
  | .lit _ :: _, [], _ => none
  | .y4 :: toks, cs, p =>
    let (ds, rest) := takeDigits 4 cs
    if ds.isEmpty then none else matchFmt toks rest { p with y := some (digitsToNat ds) }
  | .y2 :: toks, cs, p =>
    let (ds, rest) := takeDigits 2 cs
    if ds.isEmpty then none
    else
      let v := digitsToNat ds
      let yr := if v ≤ 68 then 2000 + v else 1900 + v
      matchFmt toks rest { p with y := some yr }
  | .mM :: toks, cs, p =>
    let (ds, rest) := takeDigits 2 cs
    if ds.isEmpty then none else matchFmt toks rest { p with m := some (digitsToNat ds) }
  | .dD :: toks, cs, p =>
    let (ds, rest) := takeDigits 2 cs
    if ds.isEmpty then none else matchFmt toks rest { p with d := some (digitsToNat ds) }

/-- `datetime.strptime(s, fmt).date()`, returning `none` on `ValueError`. -/
def strptimeDate (fmt : List DTok) (s : String) : Option PDate :=
  match matchFmt fmt s.data ⟨none, none, none⟩ with
  | none => none
  | some p =>
    match p.y, p.m, p.d with
    | some y, some m, some d =>
      if isValidDate y m d then some ⟨y, m, d⟩ else none
    | _, _, _ => none

/-- The ordered format list of `UploadService._parse_date`:
`['%Y-%m-%d', '%m/%d/%Y', '%d/%m/%Y', '%m-%d-%Y', '%d-%m-%Y', '%Y/%m/%d',
'%m/%d/%y', '%d/%m/%y']`. -/
def dateFormats : List (List DTok) :=
  [ [.y4, .lit '-', .mM, .lit '-', .dD]
  , [.mM, .lit '/', .dD, .lit '/', .y4]
  , [.dD, .lit '/', .mM, .lit '/', .y4]
  , [.mM, .lit '-', .dD, .lit '-', .y4]
  , [.dD, .lit '-', .mM, .lit '-', .y4]
  , [.y4, .lit '/', .mM, .lit '/', .dD]
  , [.mM, .lit '/', .dD, .lit '/', .y2]
  , [.dD, .lit '/', .mM, .lit '/', .y2] ]

/-- `UploadService._parse_date`: strip the string, try the formats in order,
first success wins; `none` models the trailing `raise ValueError`. -/
def parse_date (dateStr : String) : Option PDate :=
  let s := pyStrip dateStr
  (dateFormats.firstM (fun fmt => strptimeDate fmt s))

/-! ## Decimal amounts

Python's `Decimal` is an exact scaled integer; `Dec m e` denotes the value
`m / 10 ^ e`.  Comparisons are numeric (`Decimal('4.50') == Decimal('4.5')`),
so the model's comparisons cross-multiply by the powers of ten rather than
comparing representations. -/

structure Dec where
  mant : Int
  exp : Nat
deriving DecidableEq, Repr

/-- Numeric equality of decimals (`Decimal.__eq__`, and SQL `=` on a
decimal column). -/
def Dec.eqv (a b : Dec) : Bool :=
  decide (a.mant * 10 ^ b.exp = b.mant * 10 ^ a.exp)

/-- Numeric `<` on decimals. -/
def Dec.lt (a b : Dec) : Bool :=
  decide (a.mant * 10 ^ b.exp < b.mant * 10 ^ a.exp)

/-- `abs` on decimals. -/
def Dec.absD (a : Dec) : Dec :=
  ⟨|a.mant|, a.exp⟩

/-- `Decimal(0)` is falsy (`if date_value and amount_value:`). -/
def Dec.isZero (a : Dec) : Bool :=
  a.mant == 0

def allDigits (cs : List Char) : Bool :=
  cs.all Char.isDigit

/-- `Decimal(s)` for plain sign/digits/point strings, `none` models
`InvalidOperation`.  (Exponent and special forms never occur in this
pipeline's inputs; they would only arise from already-rejected rows.) -/
def parseDecimal (s : String) : Option Dec :=
  let (sgn, cs) : Int × List Char :=
    match s.data with
    | '-' :: rest => (-1, rest)
    | '+' :: rest => (1, rest)
    | cs => (1, cs)
  match splitOnChar '.' cs with
  | [ip] =>
    if ip.isEmpty then none
    else if allDigits ip then some ⟨sgn * digitsToNat ip, 0⟩ else none
  | [ip, fp] =>
    if ip.isEmpty && fp.isEmpty then none
    else if allDigits ip && allDigits fp then
      some ⟨sgn * (digitsToNat ip * 10 ^ fp.length + digitsToNat fp), fp.length⟩
    else none
  | _ => none

/-- A `Decimal` acceptable to `DecimalField(max_digits=12, decimal_places=2)`
(at most two decimal places, fewer than ten integer digits). -/
def isDecimal12_2 (q : Dec) : Bool :=
  (q.mant * 100) % (10 : Int) ^ q.exp == 0 && |q.mant| < (10 : Int) ^ (10 + q.exp)

/-! ## Data model

The persisted rows used by the pipeline.  All rows belong to the single
user driving the service (`UploadService.__init__` fixes `self.user`, and
every query filters on it), so user references are not modelled explicitly.
-/

/-- The normalized candidate-transaction dictionary produced by the parsers
(`_parse_csv_row`, `_parse_pdf_transactions`, …).  `Option` marks a key
being absent from the dict (`tx_data.get(...)` then yields the default). -/
structure Candidate where
  amount : Option Dec
  date : Option PDate
  description : Option String
  txType : Option String
deriving DecidableEq, Repr

/-- A persisted `Transaction` row (the fields read or written by this
pipeline: `_prepare_transaction_data`, `_is_duplicate_transaction`,
`_is_likely_transfer`). -/
structure Txn where
  id : Nat
  account : Option Nat
  amount : Dec
  date : PDate
  description : String
  txType : String
  categoryId : Option Nat
  currency : String
  txStatus : String
deriving DecidableEq, Repr

/-- A `TransactionImport` row. -/
structure ImportRecord where
  sessionId : Nat
  txnId : Option Nat
  importStatus : String
  parsedAmount : Option Dec
  parsedDate : Option PDate
  parsedDescription : String
  errorMessage : String
  suggestedConfidence : Option Dec
deriving DecidableEq, Repr

/-- A `TransactionLink` row. -/
structure Link where
  fromId : Nat
  toId : Nat
  linkType : String
  confidence : Dec
  autoDetected : Bool
  isConfirmed : Bool
deriving DecidableEq, Repr

/-- A `MerchantPattern` row. -/
structure MerchantPattern where
  id : Nat
  patternText : String
  patternType : String
  categoryId : Nat
  confidence : Dec
  usageCount : Nat
  lastUsed : Option Nat
  isActive : Bool
deriving DecidableEq, Repr

/-- An `UploadSession` row. -/
structure Session where
  id : Nat
  originalFilename : String
  fileType : String
  fileSize : Nat
  sessionStatus : String
  account : Option Nat
  totalTransactions : Nat
  successfulImports : Nat
  failedImports : Nat
  duplicateImports : Nat
  processingStartedAt : Option Nat
  processingCompletedAt : Option Nat
  errorMessage : String
  fileContent : Option String
  requiresPassword : Bool
  aiCategorizationEnabled : Bool
deriving DecidableEq, Repr

/-- The persisted store shared by the operations (transactions, import
records, links, merchant patterns), plus the id counter for created
transactions. -/
structure DB where
  transactions : List Txn
  imports : List ImportRecord
  links : List Link
  patterns : List MerchantPattern
  nextTxnId : Nat
deriving DecidableEq, Repr

/-! ## `UploadSession` state-machine methods (`models/uploads.py`) -/

/-- `UploadSession.mark_processing`: unconditionally sets the status. -/
def mark_processing (s : Session) (now : Nat) : Session :=
  { s with sessionStatus := "processing", processingStartedAt := some now }

/-- `UploadSession.mark_completed`. -/
def mark_completed (s : Session) (now : Nat) : Session :=
  { s with sessionStatus := "completed", processingCompletedAt := some now }

/-- `UploadSession.mark_failed`. -/
def mark_failed (s : Session) (err : String) (now : Nat) : Session :=
  { s with sessionStatus := "failed", errorMessage := err,
           processingCompletedAt := some now }

/-- `MerchantPattern.increment_usage`: bump the usage count and set
`last_used` in memory; when the post-increment usage count exceeds one the
method then evaluates `min(1.0, self.confidence + 0.1)` — but `confidence`
is a `Decimal` fetched from a `DecimalField` and `0.1` is a `float`, and
`Decimal + float` raises `TypeError`.  The exception is raised before
`save()`, so on every application after the first nothing is persisted and
the exception propagates to the caller; `none` models that raise.  Only the
first application (post-increment count exactly one) reaches `save()`, and
it leaves the confidence untouched. -/
def increment_usage (p : MerchantPattern) (now : Nat) : Option MerchantPattern :=
  let p := { p with usageCount := p.usageCount + 1, lastUsed := some now }
  if p.usageCount > 1 then
    none
  else
    some p

/-! ## Tabular (CSV) parsing (`_process_csv`, `_parse_csv_row`) -/

/-- A `csv.DictReader` row: header name → cell value. -/
def Row := List (String × String)

def rowGet (row : Row) (f : String) : Option String :=
  (List.find? (fun kv => kv.1 == f) row).map (fun kv => kv.2)

/-- `if field in row and row[field]:` — first field present with a truthy
(non-empty) value, traversing `fields` in order. -/
def firstTruthy (fields : List String) (row : Row) : Option String :=
  fields.firstM (fun f =>
    match rowGet row f with
    | some v => if v = "" then none else some v
    | none => none)

def dateFieldNames : List String :=
  ["date", "transaction_date", "posting_date", "Date", "Transaction Date"]

def amountFieldNames : List String :=
  ["amount", "transaction_amount", "value", "Amount", "Value", "Debit", "Credit"]

def descriptionFieldNames : List String :=
  ["description", "payee", "merchant", "Description", "Payee", "Details"]

/-- The amount loop of `_parse_csv_row`: strip `$`/`,`/whitespace; skip
empty or `"-"` cells; on `InvalidOperation` continue with the next field;
the first successfully parsed field wins, taken in absolute value. -/
def findAmountValue (row : Row) : Option Dec :=
  amountFieldNames.firstM (fun f =>
    match rowGet row f with
    | some v =>
      if v = "" then none
      else
        let amountStr := pyStrip (removeChar ',' (removeChar '$' v))
        if amountStr ≠ "" && amountStr ≠ "-" then
          (parseDecimal amountStr).map Dec.absD
        else none
    | none => none)

/-- `UploadService._parse_csv_row`.  Returns `none` when the row yields no
candidate: no truthy date cell, an unparseable date (the `ValueError`
escapes to the enclosing `except`), no parseable amount cell, or a zero
amount (`Decimal(0)` is falsy, so `if date_value and amount_value` fails).
The transaction type is always the literal `"expense"`. -/
def parse_csv_row (row : Row) : Option Candidate :=
  match firstTruthy dateFieldNames row with
  | none => none
  | some v =>
    match parse_date v with
    | none => none
    | some d =>
      match findAmountValue row with
      | none => none
      | some a =>
        if a.isZero then none
        else
          let desc :=
            match firstTruthy descriptionFieldNames row with
            | some dv => pyStrip dv
            | none => "Imported transaction"
          some { amount := some a, date := some d,
                 description := some desc, txType := some "expense" }

/-- The candidate rows of a CSV text: first line is the header, each later
line is zipped against it (`csv.DictReader`). -/
def csvRows (content : String) : List Row :=
  match splitString '\n' content with
  | [] => []
  | header :: rest =>
    let hs := splitString ',' header
    rest.map (fun line => hs.zip (splitString ',' line))

/-- The candidates extracted by the `_process_csv` loop: rows for which
`_parse_csv_row` returns a value; `None` rows are silently dropped. -/
def csvCandidates (content : String) : List Candidate :=
  (csvRows content).filterMap parse_csv_row

/-! ## Duplicate detection, categorization, persistence -/

/-- The filter predicate of `_is_duplicate_transaction`'s query: a
persisted transaction on the given account with the candidate's amount,
date and description, and `status='active'`. -/
def txnMatches (acc : Nat) (c : Candidate) (t : Txn) : Bool :=
  decide (t.account = some acc) &&
  (match c.amount with
   | some a => Dec.eqv t.amount a
   | none => false) &&
  decide (some t.date = c.date) &&
  decide (t.description = c.description.getD "") &&
  decide (t.txStatus = "active")

/-- `UploadService._is_duplicate_transaction`: `False` without an account,
otherwise an exact-match existence query. -/
def is_duplicate_transaction (c : Candidate) (acc : Option Nat) (db : DB) : Bool :=
  match acc with
  | none => false
  | some a => db.transactions.any (txnMatches a c)

/-- The dictionary built by `_prepare_transaction_data` (the `str()` /
`isoformat()` round-trips through the serializer are value-preserving and
kept as the underlying values). -/
structure PreparedData where
  amount : Dec
  description : String
  date : Option PDate
  txType : String
  account : Option Nat
  currency : String
  categoryId : Option Nat
deriving DecidableEq, Repr

/-- `UploadService._prepare_transaction_data`. -/
def prepare_transaction_data (c : Candidate) (acc : Option Nat) : PreparedData :=
  { amount := c.amount.getD ⟨0, 0⟩
  , description := c.description.getD "Imported transaction"
  , date := c.date
  , txType := c.txType.getD "expense"
  , account := acc
  , currency := "USD"
  , categoryId := none }

/-- The `transaction_type` choices accepted by the `Transaction` model. -/
def validTxType (ty : String) : Bool :=
  ["income", "expense", "transfer", "buy", "sell", "dividend",
   "lend", "borrow", "repayment"].contains ty

/-- `TransactionSerializer.is_valid()` on the prepared data: `date` is
required, `description` may not be blank, the amount must fit
`DecimalField(max_digits=12, decimal_places=2)`, and the transaction type
must be a declared choice. -/
def serializerIsValid (d : PreparedData) : Bool :=
  d.date.isSome && d.description ≠ "" && isDecimal12_2 d.amount && validTxType d.txType

/-- `ORDER BY confidence DESC, usage_count DESC` key comparison. -/
def patKeyGt (x y : MerchantPattern) : Bool :=
  Dec.lt y.confidence x.confidence ||
  (Dec.eqv x.confidence y.confidence && decide (y.usageCount < x.usageCount))

def insertPat (x : MerchantPattern) : List MerchantPattern → List MerchantPattern
  | [] => [x]
  | y :: ys => if patKeyGt x y then x :: y :: ys else y :: insertPat x ys

/-- The ordered pattern query of `_suggest_category`. -/
def sortPatterns (ps : List MerchantPattern) : List MerchantPattern :=
  ps.foldr insertPat []

/-- Does this pattern match the (lower-cased) description under its match
mode?  (`contains` and `starts_with` are the only modes the code tests;
`regex` patterns never match.) -/
def patternApplies (description : String) (p : MerchantPattern) : Bool :=
  (p.patternType == "contains" && strContainsSub description (pyLower p.patternText)) ||
  (p.patternType == "starts_with" && strStartsWith description (pyLower p.patternText))

def findPatternMatch (description : String) : List MerchantPattern → Option MerchantPattern
  | [] => none
  | p :: ps =>
    if patternApplies description p then some p else findPatternMatch description ps

/-- `UploadService._suggest_category`: scan the user's active patterns by
(confidence desc, usage desc); the first matching pattern is reinforced
via `increment_usage` and its category returned.  When `increment_usage`
raises (any application after the pattern's first), the exception
propagates out of `_suggest_category`: `none` models that raise, and the
store is unchanged because `save()` was never reached. -/
def suggest_category (d : PreparedData) (db : DB) (now : Nat) :
    Option (Option Nat × DB) :=
  let description := pyLower d.description
  let pats := sortPatterns (db.patterns.filter (fun p => p.isActive))
  match findPatternMatch description pats with
  | none => some (none, db)
  | some p =>
    match increment_usage p now with
    | none => none
    | some p2 =>
      some (some p.categoryId,
        { db with patterns := db.patterns.map (fun q =>
            if q.id = p.id then p2 else q) })

/-- Per-candidate outcome inside `_import_transactions`. -/
inductive Outcome where
  | imported
  | dup
  | failed
deriving DecidableEq, Repr

/-- One iteration of the `_import_transactions` loop: create the
`TransactionImport` record, run the duplicate check, optionally categorize,
then either persist the `Transaction` and mark the record `imported`, or
mark it `failed` when the serializer rejects the data. -/
def process_candidate (s : Session) (now : Nat) (db : DB) (c : Candidate) :
    DB × Outcome :=
  let rec0 : ImportRecord :=
    { sessionId := s.id, txnId := none, importStatus := "pending"
    , parsedAmount := c.amount, parsedDate := c.date
    , parsedDescription := c.description.getD ""
    , errorMessage := "", suggestedConfidence := none }
  if is_duplicate_transaction c s.account db then
    ({ db with imports := db.imports ++ [{ rec0 with importStatus := "duplicate" }] },
     .dup)
  else
    let d0 := prepare_transaction_data c s.account
    let sugOpt : Option (Option Nat × DB) :=
      if s.aiCategorizationEnabled then suggest_category d0 db now else some (none, db)
    match sugOpt with
    | none =>
      -- the `TypeError` raised inside `increment_usage` propagates out of
      -- `_suggest_category` into the per-candidate `except` handler: the
      -- record is marked failed (its message is `str(e)`, quotes around
      -- the type names omitted here) and `failed_imports` is incremented;
      -- the pattern was not saved and no transaction is created.
      let raisedErr : String :=
        "unsupported operand type(s) for +: decimal.Decimal and float"
      let raisedRec : ImportRecord :=
        { rec0 with importStatus := "failed", errorMessage := raisedErr }
      ({ db with imports := db.imports ++ [raisedRec] }, .failed)
    | some sug =>
      let d : PreparedData :=
        match sug.1 with
        | some cat => { d0 with categoryId := some cat }
        | none => d0
      let db1 := sug.2
      let conf : Option Dec :=
        match sug.1 with
        | some _ => some ⟨8, 1⟩
        | none => none
      let failedRec : ImportRecord :=
        { rec0 with importStatus := "failed", errorMessage := "Validation failed",
                    suggestedConfidence := conf }
      if serializerIsValid d then
        match d.date with
        | some dd =>
          let t : Txn :=
            { id := db1.nextTxnId, account := d.account, amount := d.amount,
              date := dd, description := d.description, txType := d.txType,
              categoryId := d.categoryId, currency := d.currency, txStatus := "active" }
          let importedRec : ImportRecord :=
            { rec0 with importStatus := "imported", txnId := some t.id,
                        suggestedConfidence := conf }
          ({ db1 with
               transactions := db1.transactions ++ [t],
               nextTxnId := db1.nextTxnId + 1,
               imports := db1.imports ++ [importedRec] },
           .imported)
        | none =>
          -- unreachable: `serializerIsValid` requires `d.date.isSome`
          ({ db1 with imports := db1.imports ++ [failedRec] }, .failed)
      else
        ({ db1 with imports := db1.imports ++ [failedRec] }, .failed)

/-- The loop of `_import_transactions`, returning the updated store and the
(successful, failed, duplicate) counts. -/
def importLoop (s : Session) (now : Nat) : DB → List Candidate → DB × Nat × Nat × Nat
  | db, [] => (db, 0, 0, 0)
  | db, c :: cs =>
    let next := process_candidate s now db c
    let rest := importLoop s now next.1 cs
    match next.2 with
    | .imported => (rest.1, rest.2.1 + 1, rest.2.2.1, rest.2.2.2)
    | .failed => (rest.1, rest.2.1, rest.2.2.1 + 1, rest.2.2.2)
    | .dup => (rest.1, rest.2.1, rest.2.2.1, rest.2.2.2 + 1)

/-- The result dictionary of `_import_transactions`. -/
structure ImpResult where
  success : Bool
  errorMsg : Option String
  total : Nat
  successful : Nat
  failed : Nat
  duplicate : Nat
deriving DecidableEq, Repr

/-- `UploadService._import_transactions`. -/
def import_transactions (s : Session) (cands : List Candidate) (db : DB) (now : Nat) :
    DB × ImpResult :=
  let r := importLoop s now db cands
  (r.1, { success := true, errorMsg := none, total := cands.length
        , successful := r.2.1, failed := r.2.2.1, duplicate := r.2.2.2 })

/-- `UploadService._process_csv`. -/
def process_csv (s : Session) (content : String) (db : DB) (now : Nat) :
    DB × ImpResult :=
  import_transactions s (csvCandidates content) db now

/-! ## Transaction link detection -/

/-- `UploadService._is_likely_transfer`. -/
def is_likely_transfer (t1 t2 : Txn) : Bool :=
  if !(Dec.eqv t1.amount t2.amount) then false
  else if t1.account = t2.account then false
  else if 3 < dateDiffDays t1.date t2.date then false
  else
    let oppositeTypes :=
      (t1.txType == "income" && t2.txType == "expense") ||
      (t1.txType == "expense" && t2.txType == "income")
    let similarDescriptions :=
      strContainsSub (pyLower t1.description) "transfer" ||
      strContainsSub (pyLower t2.description) "transfer"
    oppositeTypes || similarDescriptions

/-- `TransactionLink.objects.get_or_create` keyed on
(from, to, link_type), with the given defaults. -/
def getOrCreateTransferLink (db : DB) (f t : Nat) : DB :=
  if db.links.any (fun l => decide (l.fromId = f ∧ l.toId = t ∧ l.linkType = "transfer")) then
    db
  else
    { db with links := db.links ++
        [{ fromId := f, toId := t, linkType := "transfer"
         , confidence := ⟨8, 1⟩, autoDetected := true, isConfirmed := false }] }

def lookupTxn (db : DB) (i : Nat) : Option Txn :=
  List.find? (fun t => t.id == i) db.transactions

/-- The session query of `_detect_transaction_links`: import records of the
session with `import_status='imported'` and a non-null transaction,
dereferenced to the transactions. -/
def sessionImportedTxns (sid : Nat) (db : DB) : List Txn :=
  (db.imports.filter (fun r =>
      r.sessionId == sid && r.importStatus == "imported" && r.txnId.isSome)).filterMap
    (fun r => r.txnId.bind (lookupTxn db))

/-- The pairwise `for i, tx1 … for tx2 in transactions[i+1:]` loop. -/
def detectPairsLoop : List Txn → DB → DB
  | [], db => db
  | t :: rest, db =>
    let db' := rest.foldl
      (fun acc t2 => if is_likely_transfer t t2 then getOrCreateTransferLink acc t.id t2.id else acc)
      db
    detectPairsLoop rest db'

/-- `UploadService._detect_transaction_links`. -/
def detect_transaction_links (sid : Nat) (db : DB) : DB :=
  detectPairsLoop (sessionImportedTxns sid db) db

/-! ## Session creation and processing -/

/-- `UploadService._detect_file_type`. -/
def detect_file_type (filename content : String) : String :=
  let fl := pyLower filename
  if strEndsWith fl ".pdf" then "pdf"
  else if strEndsWith fl ".csv" then "csv"
  else if strEndsWith fl ".json" then "json"
  else if strEndsWith fl ".xls" || strEndsWith fl ".xlsx" then "excel"
  else
    let contentStr := String.mk (content.data.take 1024)
    let stripped := pyStrip contentStr
    if strStartsWith stripped "\x7b" || strStartsWith stripped "[" then "json"
    else if strContainsSub contentStr "," && strContainsSub contentStr "\n" then "csv"
    else "unknown"

/-- `UploadService.create_upload_session`: the raw bytes are stored on the
session only for files strictly smaller than 10 MiB. -/
def create_upload_session (sid : Nat) (filename content : String) (acc : Option Nat) :
    Session :=
  { id := sid
  , originalFilename := filename
  , fileType := detect_file_type filename content
  , fileSize := content.length
  , sessionStatus := "pending"
  , account := acc
  , totalTransactions := 0, successfulImports := 0
  , failedImports := 0, duplicateImports := 0
  , processingStartedAt := none, processingCompletedAt := none
  , errorMessage := ""
  , fileContent := if content.length < 10 * 1024 * 1024 then some content else none
  , requiresPassword := false
  , aiCategorizationEnabled := true }

/-- `UploadService.process_upload_session`.

The `pdf`, `json` and `excel` branches delegate to external collaborators
(PyPDF2, raw JSON payloads, pandas) and are not modelled; together with the
source's final `else: raise ValueError` branch they are represented here by
the session-level exception handler's path (error result, counters left
untouched).  Every per-candidate accounting property is proved over
`import_transactions` for arbitrary candidate lists, which those branches
share with the tabular path. -/
def process_upload_session (s : Session) (db : DB) (now : Nat) :
    Session × DB × ImpResult :=
  let s1 := mark_processing s now
  let contentOk : Option String :=
    match s1.fileContent with
    | some c => if c = "" then none else some c
    | none => none
  match contentOk with
  | none =>
    let msg := "File content not available for processing"
    (mark_failed s1 msg now, db,
     { success := false, errorMsg := some msg
     , total := 0, successful := 0, failed := 0, duplicate := 0 })
  | some content =>
    if s1.fileType == "csv" then
      let step := process_csv s1 content db now
      let db1 := step.1
      let r := step.2
      let s2 := { s1 with totalTransactions := r.total
                        , successfulImports := r.successful
                        , failedImports := r.failed
                        , duplicateImports := r.duplicate }
      let s3 :=
        if r.success then mark_completed s2 now
        else mark_failed s2 (r.errorMsg.getD "Unknown error") now
      let db2 := detect_transaction_links s3.id db1
      (s3, db2, r)
    else
      let msg := "Unsupported file type: " ++ s1.fileType
      (mark_failed s1 msg now, db,
       { success := false, errorMsg := some msg
       , total := 0, successful := 0, failed := 0, duplicate := 0 })

/-! ## Exposed operations on import records and transactions
(`TransactionImportViewSet.update_status`; Django delete semantics for
`Transaction`: `SET_NULL` on `TransactionImport.transaction`, `CASCADE`
on `TransactionLink`). -/

def setStatusAt : Nat → String → List ImportRecord → List ImportRecord
  | _, _, [] => []
  | 0, st, r :: rs => { r with importStatus := st } :: rs
  | n + 1, st, r :: rs => r :: setStatusAt n st rs

/-- `TransactionImportViewSet.update_status`: only `skipped` and `pending`
are accepted; the transaction reference is left untouched. -/
def update_status (i : Nat) (newStatus : String) (db : DB) : DB :=
  if newStatus == "skipped" || newStatus == "pending" then
    { db with imports := setStatusAt i newStatus db.imports }
  else db

/-- Deleting a `Transaction`: the row goes away, import records pointing at
it get `transaction = NULL` (`on_delete=SET_NULL`) with their status
untouched, links referencing it cascade. -/
def delete_transaction (tid : Nat) (db : DB) : DB :=
  { db with
    transactions := db.transactions.filter (fun t => !(t.id == tid))
  , imports := db.imports.map (fun r =>
      if r.txnId = some tid then { r with txnId := none } else r)
  , links := db.links.filter (fun l => !(l.fromId == tid) && !(l.toId == tid)) }

/-- The operations of the audit-trail invariant claim: import processing,
import-status update, transaction deletion. -/
inductive Op where
  | importOp (s : Session) (cands : List Candidate) (now : Nat)
  | statusOp (i : Nat) (st : String)
  | deleteOp (tid : Nat)

def applyOp (db : DB) : Op → DB
  | .importOp s cands now => (import_transactions s cands db now).1
  | .statusOp i st => update_status i st db
  | .deleteOp tid => delete_transaction tid db

def applyOps (db : DB) (ops : List Op) : DB :=
  ops.foldl applyOp db

/-- The audit-trail invariant: a record's transaction reference is non-null
exactly when its status is `imported`. -/
def auditInvariant (db : DB) : Prop :=
  ∀ r ∈ db.imports, (r.txnId.isSome ↔ r.importStatus = "imported")

/-- The empty store. -/
def emptyDB : DB :=
  { transactions := [], imports := [], links := [], patterns := [], nextTxnId := 0 }

/-! ## Concrete inputs used by the example-based theorems -/

/-- The two-row tabular file of the import example. -/
def c2content : String :=
  "date,description,amount\n2024-01-15,Coffee Shop,-4.50\n2024-01-15,Salary,3000.00"

def c2session : Session :=
  create_upload_session 1 "bank.csv" c2content (some 7)

/-- A tabular file whose first data row has an unparseable date. -/
def c6content : String :=
  "date,description,amount\ngarbage,X,5.00\n2024-01-15,Y,7.00"

def c6session : Session :=
  create_upload_session 2 "rows.csv" c6content (some 7)

/-- The malformed row of `c6content`, as a `DictReader` row. -/
def rowBad6 : Row :=
  [("date", "garbage"), ("description", "X"), ("amount", "5.00")]

/-- The well-formed row of `c6content`, as a `DictReader` row. -/
def rowOk6 : Row :=
  [("date", "2024-01-15"), ("description", "Y"), ("amount", "7.00")]

/-- A session already in status `processing`. -/
def c7session : Session :=
  { c2session with sessionStatus := "processing" }

/-- A fresh merchant pattern (never used, confidence `0.5`). -/
def p8 : MerchantPattern :=
  { id := 1, patternText := "coffee", patternType := "contains", categoryId := 3
  , confidence := ⟨5, 1⟩, usageCount := 0, lastUsed := none, isActive := true }

def db8 : DB :=
  { emptyDB with patterns := [p8] }

def d8 : PreparedData :=
  prepare_transaction_data
    ⟨some ⟨45, 1⟩, some ⟨2024, 1, 15⟩, some "Coffee Shop", some "expense"⟩ (some 1)

/-- A well-formed candidate used by the audit-trail counterexample. -/
def cand4 : Candidate :=
  ⟨some ⟨100, 2⟩, some ⟨2024, 3, 1⟩, some "Grocery", some "expense"⟩

def s4 : Session :=
  create_upload_session 4 "one.csv" "date,description,amount" (some 2)

/-- Import one good candidate, then set the resulting `imported` record's
status to `skipped` through the exposed status-update endpoint. -/
def ops4 : List Op :=
  [Op.importOp s4 [cand4] 0, Op.statusOp 0 "skipped"]

/-- The same pattern after its first (persisted) application. -/
def p8used : MerchantPattern :=
  { p8 with usageCount := 1, lastUsed := some 9 }

def db8used : DB :=
  { emptyDB with patterns := [p8used] }

/-- An account-less session. -/
def s9 : Session :=
  { c2session with account := none }

/-- An account-less session with AI categorization disabled. -/
def s9ai : Session :=
  { s9 with aiCategorizationEnabled := false }

/-- A candidate whose description matches the pattern `p8`. -/
def cand9 : Candidate :=
  ⟨some ⟨45, 1⟩, some ⟨2024, 1, 15⟩, some "Coffee Shop", some "expense"⟩

/-- A file of exactly 10 MiB (the storage threshold). -/
def bigContent : String :=
  String.mk (List.replicate (10 * 1024 * 1024) 'a')

/-! ## Supporting lemmas -/

theorem suggest_category_imports (d : PreparedData) (db : DB) (now : Nat)
    (r : Option Nat × DB) (h : suggest_category d db now = some r) :
    r.2.imports = db.imports := by
  unfold suggest_category at h
  dsimp only at h
  split at h
  · have h2 := Option.some.inj h
    subst h2
    rfl
  · split at h
    · cases h
    · have h2 := Option.some.inj h
      subst h2
      rfl

theorem suggest_category_transactions (d : PreparedData) (db : DB) (now : Nat)
    (r : Option Nat × DB) (h : suggest_category d db now = some r) :
    r.2.transactions = db.transactions := by
  unfold suggest_category at h
  dsimp only at h
  split at h
  · have h2 := Option.some.inj h
    subst h2
    rfl
  · split at h
    · cases h
    · have h2 := Option.some.inj h
      subst h2
      rfl

/-- Category assignment does not affect serializer validity. -/
theorem serializerIsValid_update (d : PreparedData) (x : Option Nat) :
    serializerIsValid { d with categoryId := x } = serializerIsValid d := rfl

/-- The outcome of one candidate, disentangled from the store updates:
duplicate wins, then a raised categorization `TypeError` fails the
candidate, otherwise the serializer decides imported/failed. -/
theorem process_candidate_snd (s : Session) (now : Nat) (db : DB) (c : Candidate) :
    (process_candidate s now db c).2 =
      (if is_duplicate_transaction c s.account db then Outcome.dup
       else
         match (if s.aiCategorizationEnabled = true then
             suggest_category (prepare_transaction_data c s.account) db now
           else some (none, db)) with
         | none => Outcome.failed
         | some _ =>
           if serializerIsValid (prepare_transaction_data c s.account) then Outcome.imported
           else Outcome.failed) := by
  unfold process_candidate
  dsimp only
  cases hdup : is_duplicate_transaction c s.account db
  case false =>
    simp only [hdup, Bool.false_eq_true, if_false]
    cases hsug : (if s.aiCategorizationEnabled = true then
        suggest_category (prepare_transaction_data c s.account) db now else some (none, db))
    case none => simp [hsug]
    case some sug =>
      simp only [hsug]
      obtain ⟨cat, db1⟩ := sug
      cases cat
      case none =>
        dsimp only
        cases hval : serializerIsValid (prepare_transaction_data c s.account)
        · simp [hval]
        · cases hdate : (prepare_transaction_data c s.account).date
          · simp [serializerIsValid, hdate] at hval
          · simp [hval, hdate]
      case some catv =>
        dsimp only
        cases hval : serializerIsValid (prepare_transaction_data c s.account)
        · simp [serializerIsValid_update, hval]
        · cases hdate : (prepare_transaction_data c s.account).date
          · simp [serializerIsValid, hdate] at hval
          · rw [← hdate]
            simp only [serializerIsValid_update, hval, if_true]
            simp [hdate]
  case true => simp [hdup]

theorem Dec.eqv_refl (a : Dec) : Dec.eqv a a = true := by
  simp [Dec.eqv]

theorem serializerIsValid_date (d : PreparedData) (h : serializerIsValid d = true) :
    ∃ dd, d.date = some dd := by
  simp only [serializerIsValid, Bool.and_eq_true] at h
  exact Option.isSome_iff_exists.mp h.1.1.1

/-- A duplicate candidate only appends its `duplicate` record. -/
theorem process_candidate_of_dup (s : Session) (now : Nat) (db : DB) (c : Candidate)
    (h : is_duplicate_transaction c s.account db = true) :
    (process_candidate s now db c).1.transactions = db.transactions ∧
    (process_candidate s now db c).2 = Outcome.dup := by
  unfold process_candidate
  simp [h]

/-- A categorization step that does not raise leaves the transaction table
unchanged. -/
theorem sug_transactions (s : Session) (d : PreparedData) (db : DB) (now : Nat)
    (r : Option Nat × DB)
    (h : (if s.aiCategorizationEnabled = true then suggest_category d db now
          else some (none, db)) = some r) :
    r.2.transactions = db.transactions := by
  split at h
  · exact suggest_category_transactions d db now r h
  · have h2 := Option.some.inj h
    subst h2
    rfl

theorem sug_imports (s : Session) (d : PreparedData) (db : DB) (now : Nat)
    (r : Option Nat × DB)
    (h : (if s.aiCategorizationEnabled = true then suggest_category d db now
          else some (none, db)) = some r) :
    r.2.imports = db.imports := by
  split at h
  · exact suggest_category_imports d db now r h
  · have h2 := Option.some.inj h
    subst h2
    rfl

/-- Persisted transactions survive one candidate's processing. -/
theorem process_candidate_mem (s : Session) (now : Nat) (db : DB) (c : Candidate)
    (t : Txn) (h : t ∈ db.transactions) :
    t ∈ (process_candidate s now db c).1.transactions := by
  unfold process_candidate
  dsimp only
  cases hdup : is_duplicate_transaction c s.account db
  case true => simpa [hdup] using h
  case false =>
    simp only [hdup, Bool.false_eq_true, if_false]
    cases hsug : (if s.aiCategorizationEnabled = true then
        suggest_category (prepare_transaction_data c s.account) db now else some (none, db))
    case none => simpa [hsug] using h
    case some sug =>
      have hdb0 := sug_transactions s (prepare_transaction_data c s.account) db now sug hsug
      simp only [hsug]
      obtain ⟨cat, db1⟩ := sug
      have hdb1 : db1.transactions = db.transactions := hdb0
      cases cat <;>
        dsimp only <;>
        split <;>
        first
          | (split <;> simp_all [List.mem_append])
          | simp_all [List.mem_append]

/-- Persisted transactions survive the whole import loop. -/
theorem importLoop_mem (s : Session) (now : Nat) (cands : List Candidate) :
    ∀ (db : DB) (t : Txn), t ∈ db.transactions →
      t ∈ (importLoop s now db cands).1.transactions := by
  induction cands with
  | nil => intro db t h; simpa [importLoop] using h
  | cons c cs ih =>
    intro db t h
    simp only [importLoop]
    cases hpc : (process_candidate s now db c).2 <;>
      exact ih _ t (process_candidate_mem s now db c t h)

/-- The duplicate check is monotone in the transaction table. -/
theorem is_duplicate_mono (c : Candidate) (acc : Option Nat) (db db' : DB)
    (hsub : ∀ t ∈ db.transactions, t ∈ db'.transactions)
    (h : is_duplicate_transaction c acc db = true) :
    is_duplicate_transaction c acc db' = true := by
  cases acc with
  | none => simp [is_duplicate_transaction] at h
  | some a =>
    simp only [is_duplicate_transaction, List.any_eq_true] at h ⊢
    obtain ⟨t, ht, hm⟩ := h
    exact ⟨t, hsub t ht, hm⟩

/-- Every candidate contributes to exactly one of the three counters. -/
theorem importLoop_counts (s : Session) (now : Nat) (cands : List Candidate) :
    ∀ db : DB,
      (importLoop s now db cands).2.1 + (importLoop s now db cands).2.2.1 +
        (importLoop s now db cands).2.2.2 = cands.length := by
  induction cands with
  | nil => intro db; simp [importLoop]
  | cons c cs ih =>
    intro db
    have h := ih (process_candidate s now db c).1
    simp only [importLoop]
    cases hpc : (process_candidate s now db c).2 <;>
      simp only [hpc, List.length_cons] <;> omega

/-- Each candidate appends exactly one import record. -/
theorem process_candidate_imports_len (s : Session) (now : Nat) (db : DB) (c : Candidate) :
    (process_candidate s now db c).1.imports.length = db.imports.length + 1 := by
  unfold process_candidate
  dsimp only
  cases hdup : is_duplicate_transaction c s.account db
  case true => simp [hdup]
  case false =>
    simp only [hdup, Bool.false_eq_true, if_false]
    cases hsug : (if s.aiCategorizationEnabled = true then
        suggest_category (prepare_transaction_data c s.account) db now else some (none, db))
    case none => simp [hsug]
    case some sug =>
      have hdb0 := sug_imports s (prepare_transaction_data c s.account) db now sug hsug
      simp only [hsug]
      obtain ⟨cat, db1⟩ := sug
      have hdb1 : db1.imports = db.imports := hdb0
      cases cat <;>
        dsimp only <;>
        split <;>
        first
          | (split <;> simp_all)
          | simp_all

/-- The import loop appends exactly one record per candidate. -/
theorem importLoop_imports_len (s : Session) (now : Nat) (cands : List Candidate) :
    ∀ db : DB,
      (importLoop s now db cands).1.imports.length = db.imports.length + cands.length := by
  induction cands with
  | nil => intro db; simp [importLoop]
  | cons c cs ih =>
    intro db
    have h := ih (process_candidate s now db c).1
    have h2 := process_candidate_imports_len s now db c
    simp only [importLoop]
    cases hpc : (process_candidate s now db c).2 <;>
      simp only [hpc, List.length_cons] <;> omega

/-- Without a target account the duplicate branch is unreachable: no run
ever counts a duplicate, whatever the store or the patterns do. -/
theorem importLoop_account_none_dup (s : Session) (now : Nat) (h : s.account = none)
    (cands : List Candidate) :
    ∀ db : DB, (importLoop s now db cands).2.2.2 = 0 := by
  induction cands with
  | nil => intro db; simp [importLoop]
  | cons c cs ih =>
    intro db
    have hsnd := process_candidate_snd s now db c
    rw [h] at hsnd
    simp only [is_duplicate_transaction, Bool.false_eq_true, if_false] at hsnd
    have ih1 := ih (process_candidate s now db c).1
    simp only [importLoop]
    cases hpc : (process_candidate s now db c).2
    case dup =>
      exfalso
      rw [hpc] at hsnd
      cases hsugx : (if s.aiCategorizationEnabled = true then
          suggest_category (prepare_transaction_data c none) db now else some (none, db)) <;>
        rw [hsugx] at hsnd
      · simp at hsnd
      · cases hval : serializerIsValid (prepare_transaction_data c none) <;>
          simp [hval] at hsnd
    case imported => simp only [hpc]; exact ih1
    case failed => simp only [hpc]; exact ih1

/-- Without a target account and with categorization disabled, the
imported count is the number of serializer-valid candidates, independent
of the store. -/
theorem importLoop_account_none_succ (s : Session) (now : Nat)
    (h : s.account = none) (hai : s.aiCategorizationEnabled = false)
    (cands : List Candidate) :
    ∀ db : DB,
      (importLoop s now db cands).2.1 =
        (cands.filter (fun c => serializerIsValid (prepare_transaction_data c none))).length := by
  induction cands with
  | nil => intro db; simp [importLoop]
  | cons c cs ih =>
    intro db
    have hsnd := process_candidate_snd s now db c
    rw [h, hai] at hsnd
    simp only [is_duplicate_transaction, Bool.false_eq_true, if_false] at hsnd
    have ih1 := ih (process_candidate s now db c).1
    simp only [importLoop]
    cases hval : serializerIsValid (prepare_transaction_data c none) <;>
      rw [hval] at hsnd <;> simp only [if_true, if_false, Bool.false_eq_true] at hsnd <;>
      simp [hsnd, List.filter_cons, hval, ih1]

/-- Records appended by one candidate respect the audit-trail invariant. -/
theorem process_candidate_audit (s : Session) (now : Nat) (db : DB) (c : Candidate)
    (h : auditInvariant db) :
    auditInvariant (process_candidate s now db c).1 := by
  unfold process_candidate
  dsimp only
  cases hdup : is_duplicate_transaction c s.account db
  case true =>
    simp only [hdup, if_true]
    intro r hr
    rcases List.mem_append.mp hr with h1 | h1
    · exact h r h1
    · simp only [List.mem_singleton] at h1; subst h1; simp
  case false =>
    simp only [hdup, Bool.false_eq_true, if_false]
    cases hsug : (if s.aiCategorizationEnabled = true then
        suggest_category (prepare_transaction_data c s.account) db now else some (none, db))
    case none =>
      simp only [hsug]
      intro r hr
      rcases List.mem_append.mp hr with h1 | h1
      · exact h r h1
      · simp only [List.mem_singleton] at h1; subst h1; simp
    case some sug =>
      have hdb0 := sug_imports s (prepare_transaction_data c s.account) db now sug hsug
      simp only [hsug]
      obtain ⟨cat, db1⟩ := sug
      have hdb1 : db1.imports = db.imports := hdb0
      cases cat <;> dsimp only <;> split <;> (try split) <;>
      · intro r hr
        (try simp only [hdb1] at hr)
        rcases List.mem_append.mp hr with h1 | h1
        · exact h r h1
        · simp only [List.mem_singleton] at h1; subst h1; simp

/-- The audit-trail invariant is preserved by the whole import loop. -/
theorem importLoop_audit (s : Session) (now : Nat) (cands : List Candidate) :
    ∀ db : DB, auditInvariant db → auditInvariant (importLoop s now db cands).1 := by
  induction cands with
  | nil => intro db h; simpa [importLoop] using h
  | cons c cs ih =>
    intro db h
    simp only [importLoop]
    cases hpc : (process_candidate s now db c).2 <;>
      exact ih _ (process_candidate_audit s now db c h)

/-! ## Claim theorems -/

/-- C3: for every upload session, after processing completes (successfully
or not), `successful_imports + failed_imports + duplicate_imports ≤
total_transactions`: freshly created sessions satisfy the bound, and one
run of `process_upload_session` preserves it — the import loop assigns
exactly one outcome per candidate so the three counters sum to the total,
and the exception paths leave the counters untouched. -/
theorem c3_counter_invariant (s : Session) (db : DB) (now : Nat)
    (h : s.successfulImports + s.failedImports + s.duplicateImports ≤ s.totalTransactions) :
    (∀ (sid : Nat) (fn content : String) (acc : Option Nat),
       (create_upload_session sid fn content acc).successfulImports +
         (create_upload_session sid fn content acc).failedImports +
         (create_upload_session sid fn content acc).duplicateImports ≤
         (create_upload_session sid fn content acc).totalTransactions) ∧
    (process_upload_session s db now).1.successfulImports +
      (process_upload_session s db now).1.failedImports +
      (process_upload_session s db now).1.duplicateImports ≤
      (process_upload_session s db now).1.totalTransactions := by
  constructor
  · intro sid fn content acc
    simp [create_upload_session]
  · unfold process_upload_session
    dsimp only
    split
    · simpa [mark_failed, mark_processing] using h
    · split
      · rename_i content hcontent hcsv
        have hc := importLoop_counts (mark_processing s now) now (csvCandidates content) db
        simp only [process_csv, import_transactions, mark_completed, if_true]
        omega
      · simpa [mark_failed, mark_processing] using h

/-- C3 witness. -/
theorem c3_counter_invariant_witness :
    (c2session.successfulImports + c2session.failedImports + c2session.duplicateImports ≤
       c2session.totalTransactions) ∧
    ((∀ (sid : Nat) (fn content : String) (acc : Option Nat),
        (create_upload_session sid fn content acc).successfulImports +
          (create_upload_session sid fn content acc).failedImports +
          (create_upload_session sid fn content acc).duplicateImports ≤
          (create_upload_session sid fn content acc).totalTransactions) ∧
     (process_upload_session c2session emptyDB 0).1.successfulImports +
       (process_upload_session c2session emptyDB 0).1.failedImports +
       (process_upload_session c2session emptyDB 0).1.duplicateImports ≤
       (process_upload_session c2session emptyDB 0).1.totalTransactions) :=
  ⟨by decide, c3_counter_invariant c2session emptyDB 0 (by decide)⟩

/-- C9 counterexample: in an account-less session with categorization
enabled, the duplicate check never fires — but re-submission does not
re-import every candidate.  The first run imports the candidate (the
matching fresh pattern is reinforced to usage count one and saved); on the
identical second run the same pattern now has usage count one, so
`increment_usage` raises `TypeError` (`Decimal + float`) inside the
per-candidate try and the candidate is recorded failed instead of
imported: successful drops from one to zero while duplicates stay zero. -/
theorem c9_reimport_counterexample :
    s9.account = none ∧
    s9.aiCategorizationEnabled = true ∧
    (import_transactions s9 [cand9] db8 0).2.successful = 1 ∧
    (import_transactions s9 [cand9] db8 0).2.duplicate = 0 ∧
    (import_transactions s9 [cand9] (import_transactions s9 [cand9] db8 0).1 1).2.successful = 0 ∧
    (import_transactions s9 [cand9] (import_transactions s9 [cand9] db8 0).1 1).2.failed = 1 ∧
    (import_transactions s9 [cand9] (import_transactions s9 [cand9] db8 0).1 1).2.duplicate = 0 := by
  decide

/-- C9 amended: in a session with no target account,
`_is_duplicate_transaction` returns `False` for every candidate, so no run
ever counts a duplicate — whatever the store holds.  The re-import of
every candidate on re-submission, however, only holds when categorization
cannot interfere: with AI categorization disabled the successful count is
the number of serializer-valid candidates, independent of the store, so
re-submitting the identical file re-imports every candidate; with
categorization enabled a candidate matching an already-used pattern fails
on the `TypeError` `increment_usage` raises, making the outcome depend on
the merchant-pattern store. -/
theorem c9_no_account_amended (s : Session) (cands : List Candidate)
    (db db' : DB) (now now' : Nat) (h : s.account = none) :
    (∀ (c : Candidate) (dbx : DB), is_duplicate_transaction c s.account dbx = false) ∧
    (import_transactions s cands db now).2.duplicate = 0 ∧
    (s.aiCategorizationEnabled = false →
       (import_transactions s cands db now).2.successful =
         (cands.filter (fun c => serializerIsValid (prepare_transaction_data c none))).length ∧
       (import_transactions s cands db now).2.successful =
         (import_transactions s cands db' now').2.successful) := by
  refine ⟨?_, ?_, ?_⟩
  · intro c dbx; rw [h]; rfl
  · have h2 := importLoop_account_none_dup s now h cands db
    simpa [import_transactions] using h2
  · intro hai
    have h1 := importLoop_account_none_succ s now h hai cands db
    have h2 := importLoop_account_none_succ s now' h hai cands db'
    constructor
    · simpa [import_transactions] using h1
    · simp [import_transactions, h1, h2]

/-- C9 witness. -/
theorem c9_no_account_amended_witness :
    (s9ai.account = none ∧ s9ai.aiCategorizationEnabled = false) ∧
    ((∀ (c : Candidate) (dbx : DB), is_duplicate_transaction c s9ai.account dbx = false) ∧
     (import_transactions s9ai [cand4] emptyDB 0).2.duplicate = 0 ∧
     (import_transactions s9ai [cand4] emptyDB 0).2.successful =
       ([cand4].filter (fun c => serializerIsValid (prepare_transaction_data c none))).length ∧
     (import_transactions s9ai [cand4] emptyDB 0).2.successful =
       (import_transactions s9ai [cand4]
          (import_transactions s9ai [cand4] emptyDB 0).1 1).2.successful) := by
  have t := c9_no_account_amended s9ai [cand4] emptyDB
    (import_transactions s9ai [cand4] emptyDB 0).1 0 1 rfl
  exact ⟨⟨rfl, rfl⟩, t.1, t.2.1, (t.2.2 rfl).1, (t.2.2 rfl).2⟩

/-- C4 counterexample: import one good candidate (yielding an `imported`
record referencing its transaction), then use the exposed status-update
endpoint to set the record to `skipped`; the transaction reference stays
non-null while the status is no longer `imported`, so the claimed
invariant fails after this sequence of exposed operations. -/
theorem c4_audit_invariant_counterexample :
    ¬ auditInvariant (applyOps emptyDB ops4) := by
  unfold auditInvariant
  decide

/-- C4 amended: the biconditional "transaction reference non-null iff
status `imported`" holds after import processing itself (all records the
loop writes satisfy it, and existing records are untouched); it is not
preserved by the exposed status update (which may set an `imported` record
to `skipped`/`pending` without clearing the reference) nor by transaction
deletion (`SET_NULL` clears the reference but leaves the status). -/
theorem c4_audit_invariant_after_import (s : Session) (cands : List Candidate)
    (db : DB) (now : Nat) (h : auditInvariant db) :
    auditInvariant (import_transactions s cands db now).1 := by
  simp only [import_transactions]
  exact importLoop_audit s now cands db h

/-- C4 witness. -/
theorem c4_audit_invariant_after_import_witness :
    auditInvariant emptyDB ∧
    auditInvariant (import_transactions s4 [cand4] emptyDB 0).1 :=
  ⟨fun r hr => absurd hr (List.not_mem_nil r),
   c4_audit_invariant_after_import s4 [cand4] emptyDB 0
     (fun r hr => absurd hr (List.not_mem_nil r))⟩

/-- C2 counterexample: on the two-row example file the CSV parser
hard-codes `transaction_type = 'expense'` for every row (it never inspects
the amount's sign), so the Salary row's transaction is created with
direction `expense`, not `income` as the claim states. -/
theorem c2_direction_counterexample :
    (csvRows c2content).length = 2 ∧
    ¬ ((process_csv c2session c2content emptyDB 0).1.transactions.map Txn.txType
        = ["expense", "income"]) := by
  decide

/-- C2 amended: the example file produces two `imported` records with
parsed amounts `4.50` and `3000.00` and zero duplicates, but both created
transactions carry direction `expense` — the tabular parser always assigns
`expense` regardless of the amount's sign. -/
theorem c2_tabular_import_amended :
    ((process_csv c2session c2content emptyDB 0).1.imports.map ImportRecord.importStatus)
      = ["imported", "imported"] ∧
    ((process_csv c2session c2content emptyDB 0).1.imports.map ImportRecord.parsedAmount)
      = [some ⟨450, 2⟩, some ⟨300000, 2⟩] ∧
    ((process_csv c2session c2content emptyDB 0).1.transactions.map Txn.txType)
      = ["expense", "expense"] ∧
    (process_csv c2session c2content emptyDB 0).2.duplicate = 0 ∧
    (process_csv c2session c2content emptyDB 0).2.total = 2 ∧
    (process_csv c2session c2content emptyDB 0).2.successful = 2 := by
  decide

/-- C6 counterexample: a two-row file whose first row has an unparseable
date yields a session total of `1` and zero failed imports — the malformed
row is silently dropped by `_process_csv` (`_parse_csv_row` returns `None`
and the row is skipped), not counted in the total nor recorded as a failed
candidate as the claim states.  The remaining row is still imported. -/
theorem c6_malformed_row_counterexample :
    (csvRows c6content).length = 2 ∧
    parse_csv_row ((csvRows c6content).headD []) = none ∧
    (process_csv c6session c6content emptyDB 0).2.total = 1 ∧
    (process_csv c6session c6content emptyDB 0).2.failed = 0 ∧
    (process_csv c6session c6content emptyDB 0).2.successful = 1 ∧
    (process_csv c6session c6content emptyDB 0).1.imports.length = 1 := by
  decide

/-- C6 amended: rows are parsed independently and a malformed row does not
abort the remaining rows, but it yields no candidate at all: the candidate
list with the malformed row equals the candidate list without it, the
session total counts only parseable rows, and exactly one import record
exists per candidate (hence none for the malformed row). -/
theorem c6_malformed_row_amended (s : Session) (db : DB) (now : Nat)
    (pre post : List Row) (bad : Row) (hbad : parse_csv_row bad = none) :
    ((pre ++ bad :: post).filterMap parse_csv_row
       = (pre ++ post).filterMap parse_csv_row) ∧
    (import_transactions s ((pre ++ bad :: post).filterMap parse_csv_row) db now).2.total
       = ((pre ++ post).filterMap parse_csv_row).length ∧
    (∀ (dbx : DB) (cands : List Candidate),
       (import_transactions s cands dbx now).1.imports.length
         = dbx.imports.length + cands.length) := by
  have hfm : (pre ++ bad :: post).filterMap parse_csv_row
      = (pre ++ post).filterMap parse_csv_row := by
    simp [List.filterMap_append, List.filterMap_cons, hbad]
  refine ⟨hfm, ?_, ?_⟩
  · simp [import_transactions, hfm]
  · intro dbx cands
    simpa [import_transactions] using importLoop_imports_len s now cands dbx

/-- C6 witness. -/
theorem c6_malformed_row_amended_witness :
    parse_csv_row rowBad6 = none ∧
    ((([] ++ rowBad6 :: [rowOk6]).filterMap parse_csv_row
        = ([] ++ [rowOk6]).filterMap parse_csv_row) ∧
     (import_transactions c6session (([] ++ rowBad6 :: [rowOk6]).filterMap parse_csv_row)
        emptyDB 0).2.total
        = (([] ++ [rowOk6]).filterMap parse_csv_row).length ∧
     (∀ (dbx : DB) (cands : List Candidate),
        (import_transactions c6session cands dbx 0).1.imports.length
          = dbx.imports.length + cands.length)) :=
  ⟨by decide, c6_malformed_row_amended c6session emptyDB 0 [] [rowOk6] rowBad6 (by decide)⟩

/-- C7 counterexample: invoking the process operation on a session whose
status is already `processing` is not rejected — processing runs again and
completes (the example session's two rows are imported and the session is
marked `completed`). -/
theorem c7_processing_reentry_counterexample :
    c7session.sessionStatus = "processing" ∧
    (process_upload_session c7session emptyDB 0).1.sessionStatus = "completed" ∧
    (process_upload_session c7session emptyDB 0).2.2.success = true ∧
    (process_upload_session c7session emptyDB 0).1.totalTransactions = 2 := by
  decide

/-- C7 amended: there is no single-flight guard — `process_upload_session`
never consults the session's current status (`mark_processing`
unconditionally overwrites it with `processing`), so invoking the process
operation on a session in status `processing` behaves exactly as on any
other status and re-runs processing rather than being rejected. -/
theorem c7_status_not_consulted (s : Session) (db : DB) (now : Nat) (st : String) :
    (mark_processing s now).sessionStatus = "processing" ∧
    process_upload_session { s with sessionStatus := st } db now
      = process_upload_session s db now :=
  ⟨rfl, rfl⟩

/-- C8 counterexample: the first successful application of a fresh pattern
(usage count `0`, confidence `0.5`) during category suggestion returns its
category, bumps the usage count and sets last-used, but leaves the
confidence at `0.5` — no `0.1` increase; and the second application does
not increase it either: `increment_usage` evaluates `Decimal confidence +
float 0.1`, which raises `TypeError`, so the suggestion call raises
(modelled by `none`) and nothing is saved.  In no application is the
confidence increased by the claimed fixed increment. -/
theorem c8_first_use_confidence_counterexample :
    ((suggest_category d8 db8 9).map Prod.fst) = some (some 3) ∧
    ((suggest_category d8 db8 9).map (fun r => r.2.patterns.map MerchantPattern.usageCount))
      = some [1] ∧
    ((suggest_category d8 db8 9).map (fun r => r.2.patterns.map MerchantPattern.lastUsed))
      = some [some 9] ∧
    ((suggest_category d8 db8 9).map (fun r => r.2.patterns.map MerchantPattern.confidence))
      = some [⟨5, 1⟩] ∧
    suggest_category d8 db8used 10 = none := by
  decide

theorem insertPat_mem (x q : MerchantPattern) :
    ∀ l, q ∈ insertPat x l → q = x ∨ q ∈ l := by
  intro l
  induction l with
  | nil => intro h; simp only [insertPat, List.mem_singleton] at h; exact Or.inl h
  | cons y ys ih =>
    intro h
    simp only [insertPat] at h
    split at h
    · rcases List.mem_cons.mp h with h1 | h1
      · exact Or.inl h1
      · exact Or.inr h1
    · rcases List.mem_cons.mp h with h1 | h1
      · exact Or.inr (List.mem_cons.mpr (Or.inl h1))
      · rcases ih h1 with h2 | h2
        · exact Or.inl h2
        · exact Or.inr (List.mem_cons.mpr (Or.inr h2))

theorem sortPatterns_mem (q : MerchantPattern) :
    ∀ l, q ∈ sortPatterns l → q ∈ l := by
  intro l
  induction l with
  | nil => intro h; simp [sortPatterns] at h
  | cons y ys ih =>
    intro h
    simp only [sortPatterns, List.foldr_cons] at h
    rcases insertPat_mem y q _ h with h1 | h1
    · exact List.mem_cons.mpr (Or.inl h1)
    · exact List.mem_cons.mpr (Or.inr (ih h1))

theorem findPatternMatch_mem (desc : String) :
    ∀ (l : List MerchantPattern) (p : MerchantPattern),
      findPatternMatch desc l = some p → p ∈ l := by
  intro l
  induction l with
  | nil => intro p h; cases h
  | cons y ys ih =>
    intro p h
    simp only [findPatternMatch] at h
    split at h
    · have h2 := Option.some.inj h
      subst h2
      exact List.mem_cons_self y ys
    · exact List.mem_cons.mpr (Or.inr (ih p h))

/-- C8 amended: a successful application returns the pattern's category.
On the pattern's first application (post-increment usage count exactly
one) the usage count and last-used update persists while the confidence is
left untouched; on every later application `increment_usage` raises
`TypeError` (`Decimal` confidence plus `float` `0.1`) before `save()`, so
nothing is persisted at all.  The confidence is therefore never changed by
`increment_usage` — in particular it never decreases automatically, and
the claimed `0.1`-capped increase never happens.  Category suggestion
changes the pattern store only through a persisted `increment_usage` of a
stored pattern. -/
theorem c8_increment_usage_amended (p : MerchantPattern) (now : Nat) :
    (p.usageCount = 0 →
       increment_usage p now = some { p with usageCount := 1, lastUsed := some now }) ∧
    (1 ≤ p.usageCount → increment_usage p now = none) ∧
    (∀ q, increment_usage p now = some q →
       q.confidence = p.confidence ∧ q.usageCount = p.usageCount + 1 ∧
       q.lastUsed = some now) ∧
    (∀ (d : PreparedData) (db : DB) (r : Option Nat × DB),
       suggest_category d db now = some r →
       ∀ q ∈ r.2.patterns,
         q ∈ db.patterns ∨ ∃ q₀ ∈ db.patterns, increment_usage q₀ now = some q) := by
  refine ⟨?_, ?_, ?_, ?_⟩
  · intro h0
    unfold increment_usage
    simp [h0]
  · intro h1
    unfold increment_usage
    have h2 : p.usageCount + 1 > 1 := by omega
    simp [h2]
  · intro q hq
    unfold increment_usage at hq
    dsimp only at hq
    split at hq
    · cases hq
    · have h2 := Option.some.inj hq
      subst h2
      exact ⟨rfl, rfl, rfl⟩
  · intro d db r hr q hq
    unfold suggest_category at hr
    dsimp only at hr
    cases hfind : findPatternMatch (pyLower d.description)
        (sortPatterns (db.patterns.filter (fun p => p.isActive)))
    · rw [hfind] at hr
      have h2 := Option.some.inj hr
      subst h2
      exact Or.inl hq
    · rename_i pm
      rw [hfind] at hr
      dsimp only at hr
      cases hinc : increment_usage pm now
      · rw [hinc] at hr; cases hr
      · rename_i p2
        rw [hinc] at hr
        dsimp only at hr
        have h2 := Option.some.inj hr
        subst h2
        have hpm : pm ∈ db.patterns :=
          List.mem_of_mem_filter (sortPatterns_mem pm _
            (findPatternMatch_mem (pyLower d.description) _ pm hfind))
        dsimp only at hq
        rcases List.mem_map.mp hq with ⟨q₀, hq₀, heq⟩
        by_cases hid : q₀.id = pm.id
        · rw [if_pos hid] at heq
          subst heq
          exact Or.inr ⟨pm, hpm, hinc⟩
        · rw [if_neg hid] at heq
          subst heq
          exact Or.inl hq₀

/-- C8 witness. -/
theorem c8_increment_usage_amended_witness :
    (p8.usageCount = 0 ∧
       increment_usage p8 9 = some { p8 with usageCount := 1, lastUsed := some 9 }) ∧
    (1 ≤ p8used.usageCount ∧ increment_usage p8used 9 = none) :=
  ⟨⟨rfl, (c8_increment_usage_amended p8 9).1 rfl⟩,
   ⟨by decide, (c8_increment_usage_amended p8used 9).2.1 (by decide)⟩⟩

/-- C10: session creation stores the raw bytes on the session exactly when
the file is strictly smaller than 10 MiB; processing any session whose
bytes were not stored fails at session level with
`File content not available for processing` before any format-specific
parsing (the store is untouched), leaving every counter as it was — all
zero for a freshly created session. -/
theorem c10_content_storage_gate (sid : Nat) (filename content : String)
    (acc : Option Nat) (hbig : ¬ content.length < 10 * 1024 * 1024) :
    (∀ (str : String),
       (create_upload_session sid filename str acc).fileContent
         = (if str.length < 10 * 1024 * 1024 then some str else none)) ∧
    (∀ (s : Session) (db : DB) (now : Nat), s.fileContent = none →
       (process_upload_session s db now).1.sessionStatus = "failed" ∧
       (process_upload_session s db now).1.errorMessage
         = "File content not available for processing" ∧
       (process_upload_session s db now).1.totalTransactions = s.totalTransactions ∧
       (process_upload_session s db now).1.successfulImports = s.successfulImports ∧
       (process_upload_session s db now).1.failedImports = s.failedImports ∧
       (process_upload_session s db now).1.duplicateImports = s.duplicateImports ∧
       (process_upload_session s db now).2.1 = db ∧
       (process_upload_session s db now).2.2.success = false) ∧
    ((create_upload_session sid filename content acc).fileContent = none ∧
     ∀ (db : DB) (now : Nat),
       (process_upload_session (create_upload_session sid filename content acc) db now).1.totalTransactions = 0 ∧
       (process_upload_session (create_upload_session sid filename content acc) db now).1.successfulImports = 0 ∧
       (process_upload_session (create_upload_session sid filename content acc) db now).1.failedImports = 0 ∧
       (process_upload_session (create_upload_session sid filename content acc) db now).1.duplicateImports = 0 ∧
       (process_upload_session (create_upload_session sid filename content acc) db now).1.sessionStatus = "failed" ∧
       (process_upload_session (create_upload_session sid filename content acc) db now).1.errorMessage
         = "File content not available for processing") := by
  have hproc : ∀ (s : Session) (db : DB) (now : Nat), s.fileContent = none →
      (process_upload_session s db now).1.sessionStatus = "failed" ∧
      (process_upload_session s db now).1.errorMessage
        = "File content not available for processing" ∧
      (process_upload_session s db now).1.totalTransactions = s.totalTransactions ∧
      (process_upload_session s db now).1.successfulImports = s.successfulImports ∧
      (process_upload_session s db now).1.failedImports = s.failedImports ∧
      (process_upload_session s db now).1.duplicateImports = s.duplicateImports ∧
      (process_upload_session s db now).2.1 = db ∧
      (process_upload_session s db now).2.2.success = false := by
    intro s db now hnone
    have hfc : (mark_processing s now).fileContent = s.fileContent := rfl
    simp [process_upload_session, hfc, hnone, mark_failed, mark_processing]
  have hstore : (create_upload_session sid filename content acc).fileContent = none := by
    simp [create_upload_session, hbig]
  refine ⟨fun str => rfl, hproc, hstore, fun db now => ?_⟩
  have h := hproc (create_upload_session sid filename content acc) db now hstore
  have hz : (create_upload_session sid filename content acc).totalTransactions = 0 ∧
      (create_upload_session sid filename content acc).successfulImports = 0 ∧
      (create_upload_session sid filename content acc).failedImports = 0 ∧
      (create_upload_session sid filename content acc).duplicateImports = 0 :=
    ⟨rfl, rfl, rfl, rfl⟩
  exact ⟨hz.1 ▸ h.2.2.1, hz.2.1 ▸ h.2.2.2.1, hz.2.2.1 ▸ h.2.2.2.2.1,
         hz.2.2.2 ▸ h.2.2.2.2.2.1, h.1, h.2.1⟩

/-- C10 witness. -/
theorem c10_content_storage_gate_witness :
    (¬ bigContent.length < 10 * 1024 * 1024) ∧
    ((∀ (str : String),
        (create_upload_session 10 "big.csv" str none).fileContent
          = (if str.length < 10 * 1024 * 1024 then some str else none)) ∧
     (∀ (s : Session) (db : DB) (now : Nat), s.fileContent = none →
        (process_upload_session s db now).1.sessionStatus = "failed" ∧
        (process_upload_session s db now).1.errorMessage
          = "File content not available for processing" ∧
        (process_upload_session s db now).1.totalTransactions = s.totalTransactions ∧
        (process_upload_session s db now).1.successfulImports = s.successfulImports ∧
        (process_upload_session s db now).1.failedImports = s.failedImports ∧
        (process_upload_session s db now).1.duplicateImports = s.duplicateImports ∧
        (process_upload_session s db now).2.1 = db ∧
        (process_upload_session s db now).2.2.success = false) ∧
     ((create_upload_session 10 "big.csv" bigContent none).fileContent = none ∧
      ∀ (db : DB) (now : Nat),
        (process_upload_session (create_upload_session 10 "big.csv" bigContent none) db now).1.totalTransactions = 0 ∧
        (process_upload_session (create_upload_session 10 "big.csv" bigContent none) db now).1.successfulImports = 0 ∧
        (process_upload_session (create_upload_session 10 "big.csv" bigContent none) db now).1.failedImports = 0 ∧
        (process_upload_session (create_upload_session 10 "big.csv" bigContent none) db now).1.duplicateImports = 0 ∧
        (process_upload_session (create_upload_session 10 "big.csv" bigContent none) db now).1.sessionStatus = "failed" ∧
        (process_upload_session (create_upload_session 10 "big.csv" bigContent none) db now).1.errorMessage
          = "File content not available for processing")) := by
  have hlen : bigContent.length = 10 * 1024 * 1024 := by
    show (List.replicate (10 * 1024 * 1024) 'a').length = 10 * 1024 * 1024
    exact List.length_replicate (10 * 1024 * 1024) 'a'
  have hbig : ¬ bigContent.length < 10 * 1024 * 1024 := by omega
  exact ⟨hbig, c10_content_storage_gate 10 "big.csv" bigContent none hbig⟩

/-- The duplicate check only reads the transaction table. -/
theorem is_duplicate_congr (c : Candidate) (acc : Option Nat) (db db' : DB)
    (h : db'.transactions = db.transactions) :
    is_duplicate_transaction c acc db' = is_duplicate_transaction c acc db := by
  cases acc <;> simp [is_duplicate_transaction, h]

/-- A candidate that gets imported (no raise in categorization, serializer
accepts) leaves behind a transaction that the duplicate check recognizes
for the same candidate: account, amount, date, description and `active`
status all match what `_prepare_transaction_data` wrote. -/
theorem process_candidate_imported_creates (s : Session) (now : Nat) (db : DB)
    (c : Candidate) (a : Nat) (sug : Option Nat × DB) (hacc : s.account = some a)
    (ham : c.amount.isSome = true) (hds : c.description.isSome = true)
    (hdup : is_duplicate_transaction c s.account db = false)
    (hsug : (if s.aiCategorizationEnabled = true then
        suggest_category (prepare_transaction_data c s.account) db now
      else some (none, db)) = some sug)
    (hval : serializerIsValid (prepare_transaction_data c s.account) = true) :
    is_duplicate_transaction c s.account (process_candidate s now db c).1 = true := by
  obtain ⟨am, ham'⟩ := Option.isSome_iff_exists.mp ham
  obtain ⟨ds, hds'⟩ := Option.isSome_iff_exists.mp hds
  obtain ⟨dd, hdd⟩ := serializerIsValid_date _ hval
  have hcd : c.date = some dd := hdd
  unfold process_candidate
  dsimp only
  simp only [hdup, Bool.false_eq_true, if_false, hsug]
  obtain ⟨cat, db1⟩ := sug
  cases cat
  case none =>
    dsimp only
    simp only [hval, if_true, hdd]
    rw [hacc]
    simp only [is_duplicate_transaction]
    rw [List.any_append, Bool.or_eq_true]
    refine Or.inr ?_
    simp [txnMatches, prepare_transaction_data, hacc, ham', hds', hcd, Dec.eqv_refl]
  case some catv =>
    dsimp only
    simp only [serializerIsValid_update, hval, if_true]
    simp only [hdd]
    rw [hacc]
    simp only [is_duplicate_transaction]
    rw [List.any_append, Bool.or_eq_true]
    refine Or.inr ?_
    simp [txnMatches, prepare_transaction_data, hacc, ham', hds', hcd, Dec.eqv_refl]

/-- If every candidate of a run was imported, then afterwards every one of
them is recognized by the exact-match duplicate check against the
resulting store. -/
theorem importLoop_all_imported_dup (s : Session) (now : Nat) (a : Nat)
    (hacc : s.account = some a) (cands : List Candidate) :
    ∀ db : DB,
      (∀ c ∈ cands, c.amount.isSome = true ∧ c.description.isSome = true) →
      (importLoop s now db cands).2.1 = cands.length →
      ∀ c ∈ cands,
        is_duplicate_transaction c s.account (importLoop s now db cands).1 = true := by
  induction cands with
  | nil => intro db _ _ c hc; cases hc
  | cons c0 cs ih =>
    intro db hf hsuc c hc
    have hcount := importLoop_counts s now cs (process_candidate s now db c0).1
    have hsnd := process_candidate_snd s now db c0
    simp only [importLoop] at hsuc ⊢
    cases hpc : (process_candidate s now db c0).2
    case dup =>
      exfalso
      simp only [hpc, List.length_cons] at hsuc
      omega
    case failed =>
      exfalso
      simp only [hpc, List.length_cons] at hsuc
      omega
    case imported =>
      simp only [hpc, List.length_cons] at hsuc ⊢
      have hrest : (importLoop s now (process_candidate s now db c0).1 cs).2.1
          = cs.length := by omega
      rw [hpc] at hsnd
      cases hdup0 : is_duplicate_transaction c0 s.account db
      case true => rw [hdup0] at hsnd; simp at hsnd
      case false =>
        rw [hdup0] at hsnd
        simp only [Bool.false_eq_true, if_false] at hsnd
        cases hsug0 : (if s.aiCategorizationEnabled = true then
            suggest_category (prepare_transaction_data c0 s.account) db now
          else some (none, db))
        case none => rw [hsug0] at hsnd; simp at hsnd
        case some sug =>
          rw [hsug0] at hsnd
          dsimp only at hsnd
          cases hval0 : serializerIsValid (prepare_transaction_data c0 s.account)
          case false => rw [hval0] at hsnd; simp at hsnd
          case true =>
            rcases List.mem_cons.mp hc with rfl | hc'
            · have h1 := process_candidate_imported_creates s now db c a sug hacc
                (hf c (List.mem_cons_self c cs)).1 (hf c (List.mem_cons_self c cs)).2
                hdup0 hsug0 hval0
              exact is_duplicate_mono c s.account _ _
                (fun t ht => importLoop_mem s now cs _ t ht) h1
            · exact ih (process_candidate s now db c0).1
                (fun c' hc'' => hf c' (List.mem_cons_of_mem c0 hc'')) hrest c hc'

/-- If every candidate is already flagged as a duplicate against the
store, the run imports nothing, flags everything, and leaves the
transaction table unchanged. -/
theorem importLoop_all_dup (s : Session) (now : Nat) (cands : List Candidate) :
    ∀ db : DB,
      (∀ c ∈ cands, is_duplicate_transaction c s.account db = true) →
      (importLoop s now db cands).2.1 = 0 ∧
      (importLoop s now db cands).2.2.2 = cands.length ∧
      (importLoop s now db cands).1.transactions = db.transactions := by
  induction cands with
  | nil => intro db _; simp [importLoop]
  | cons c0 cs ih =>
    intro db h
    have hdup := h c0 (List.mem_cons_self c0 cs)
    obtain ⟨htx, hout⟩ := process_candidate_of_dup s now db c0 hdup
    have hpre : ∀ c ∈ cs,
        is_duplicate_transaction c s.account (process_candidate s now db c0).1 = true := by
      intro c hc
      rw [is_duplicate_congr c s.account db _ htx]
      exact h c (List.mem_cons_of_mem c0 hc)
    obtain ⟨ih1, ih2, ih3⟩ := ih (process_candidate s now db c0).1 hpre
    simp only [importLoop, hout]
    exact ⟨ih1, by simp [ih2], by rw [ih3, htx]⟩

/-- The transfer heuristic accepts the example pair: equal `50.00`
magnitudes, different accounts, one day apart, opposite directions. -/
theorem is_likely_transfer_example (i j a b : Nat) (d1 d2 : String)
    (cat1 cat2 : Option Nat) (cur1 cur2 st1 st2 : String) (hab : a ≠ b) :
    is_likely_transfer
      { id := i, account := some a, amount := ⟨5000, 2⟩, date := ⟨2024, 2, 1⟩,
        description := d1, txType := "expense", categoryId := cat1,
        currency := cur1, txStatus := st1 }
      { id := j, account := some b, amount := ⟨5000, 2⟩, date := ⟨2024, 2, 2⟩,
        description := d2, txType := "income", categoryId := cat2,
        currency := cur2, txStatus := st2 } = true := by
  have heqv : Dec.eqv (⟨5000, 2⟩ : Dec) ⟨5000, 2⟩ = true := by decide
  have hacct : ¬ ((some a : Option Nat) = some b) := by simpa using hab
  have hdd : ¬ (3 < dateDiffDays ⟨2024, 2, 1⟩ ⟨2024, 2, 2⟩) := by decide
  simp [is_likely_transfer, heqv, hacct, hdd]

/-- C1: for a session whose per-candidate loop created exactly an expense
of `50.00` dated 2024-02-01 on account `a` and an income of `50.00` dated
2024-02-02 on a different account `b`, the post-pass link detection
creates exactly one `transfer` link between the two transactions (with the
fixed confidence `0.8` and `auto_detected = true`). -/
theorem c1_transfer_link_detected (sid i j a b nid : Nat) (d1 d2 : String)
    (cat1 cat2 : Option Nat) (cur1 cur2 st1 st2 : String)
    (pats : List MerchantPattern) (hab : a ≠ b) (hij : i ≠ j) :
    (detect_transaction_links sid
      { transactions :=
          [{ id := i, account := some a, amount := ⟨5000, 2⟩, date := ⟨2024, 2, 1⟩,
             description := d1, txType := "expense", categoryId := cat1,
             currency := cur1, txStatus := st1 },
           { id := j, account := some b, amount := ⟨5000, 2⟩, date := ⟨2024, 2, 2⟩,
             description := d2, txType := "income", categoryId := cat2,
             currency := cur2, txStatus := st2 }],
        imports :=
          [{ sessionId := sid, txnId := some i, importStatus := "imported",
             parsedAmount := some ⟨5000, 2⟩, parsedDate := some ⟨2024, 2, 1⟩,
             parsedDescription := d1, errorMessage := "", suggestedConfidence := none },
           { sessionId := sid, txnId := some j, importStatus := "imported",
             parsedAmount := some ⟨5000, 2⟩, parsedDate := some ⟨2024, 2, 2⟩,
             parsedDescription := d2, errorMessage := "", suggestedConfidence := none }],
        links := [], patterns := pats, nextTxnId := nid }).links
    = [{ fromId := i, toId := j, linkType := "transfer", confidence := ⟨8, 1⟩,
         autoDetected := true, isConfirmed := false }] := by
  have hbij : (i == j) = false := by
    simpa using hij
  have htr := is_likely_transfer_example i j a b d1 d2 cat1 cat2 cur1 cur2 st1 st2 hab
  simp [detect_transaction_links, sessionImportedTxns, lookupTxn, List.find?,
        hbij, detectPairsLoop, getOrCreateTransferLink, htr]

/-- C1 witness. -/
theorem c1_transfer_link_detected_witness :
    ((1 : Nat) ≠ 2) ∧ ((10 : Nat) ≠ 11) ∧
    (detect_transaction_links 5
      { transactions :=
          [{ id := 10, account := some 1, amount := ⟨5000, 2⟩, date := ⟨2024, 2, 1⟩,
             description := "leg one", txType := "expense", categoryId := none,
             currency := "USD", txStatus := "active" },
           { id := 11, account := some 2, amount := ⟨5000, 2⟩, date := ⟨2024, 2, 2⟩,
             description := "leg two", txType := "income", categoryId := none,
             currency := "USD", txStatus := "active" }],
        imports :=
          [{ sessionId := 5, txnId := some 10, importStatus := "imported",
             parsedAmount := some ⟨5000, 2⟩, parsedDate := some ⟨2024, 2, 1⟩,
             parsedDescription := "leg one", errorMessage := "", suggestedConfidence := none },
           { sessionId := 5, txnId := some 11, importStatus := "imported",
             parsedAmount := some ⟨5000, 2⟩, parsedDate := some ⟨2024, 2, 2⟩,
             parsedDescription := "leg two", errorMessage := "", suggestedConfidence := none }],
        links := [], patterns := [], nextTxnId := 12 }).links
    = [{ fromId := 10, toId := 11, linkType := "transfer", confidence := ⟨8, 1⟩,
         autoDetected := true, isConfirmed := false }] :=
  ⟨by decide, by decide,
   c1_transfer_link_detected 5 10 11 1 2 12 "leg one" "leg two" none none
     "USD" "USD" "active" "active" [] (by decide) (by decide)⟩

/-- C5: if a first run against a target account imported every candidate,
re-running the identical candidate list against the resulting store yields
`successful_imports = 0` and `duplicate_imports = total_transactions`:
each re-submitted candidate is flagged by the exact-match duplicate check
(amount, date, description) against the transaction its first run created.
The side condition that every candidate carries an amount and a
description holds for all parser outputs — the first conjunct proves it
for the tabular parser, whose candidates always set both fields. -/
theorem c5_reimport_all_duplicates (s : Session) (a : Nat) (cands : List Candidate)
    (db : DB) (now now' : Nat) (hacc : s.account = some a)
    (hfields : ∀ c ∈ cands, c.amount.isSome = true ∧ c.description.isSome = true)
    (h1 : (import_transactions s cands db now).2.successful = cands.length) :
    (∀ (row : Row) (c : Candidate), parse_csv_row row = some c →
       c.amount.isSome = true ∧ c.description.isSome = true) ∧
    (import_transactions s cands (import_transactions s cands db now).1 now').2.successful
      = 0 ∧
    (import_transactions s cands (import_transactions s cands db now).1 now').2.duplicate
      = (import_transactions s cands (import_transactions s cands db now).1 now').2.total ∧
    (import_transactions s cands (import_transactions s cands db now).1 now').2.total
      = cands.length := by
  have hparser : ∀ (row : Row) (c : Candidate), parse_csv_row row = some c →
      c.amount.isSome = true ∧ c.description.isSome = true := by
    intro row c hrow
    unfold parse_csv_row at hrow
    cases hA : firstTruthy dateFieldNames row
    case none => simp only [hA] at hrow; cases hrow
    case some v =>
      simp only [hA] at hrow
      cases hB : parse_date v
      case none => simp only [hB] at hrow; cases hrow
      case some d =>
        simp only [hB] at hrow
        cases hC : findAmountValue row
        case none => simp only [hC] at hrow; cases hrow
        case some am =>
          simp only [hC] at hrow
          by_cases hz : am.isZero = true
          · simp only [hz, if_true] at hrow; cases hrow
          · simp only [hz, Bool.false_eq_true, if_false] at hrow
            have hc := Option.some.inj hrow
            subst hc
            exact ⟨rfl, rfl⟩
  have hloop1 : (importLoop s now db cands).2.1 = cands.length := by
    simpa [import_transactions] using h1
  have hdups := importLoop_all_imported_dup s now a hacc cands db hfields hloop1
  have h2 := importLoop_all_dup s now' cands (importLoop s now db cands).1 hdups
  refine ⟨hparser, ?_, ?_, ?_⟩
  · simpa [import_transactions] using h2.1
  · simp only [import_transactions]
    simpa [import_transactions] using h2.2.1
  · simp [import_transactions]

/-- C5 witness: the two-row example file imported against account 7 on an
empty store, then re-submitted. -/
theorem c5_reimport_all_duplicates_witness :
    (c2session.account = some 7 ∧
     (∀ c ∈ csvCandidates c2content,
        c.amount.isSome = true ∧ c.description.isSome = true) ∧
     (import_transactions c2session (csvCandidates c2content) emptyDB 0).2.successful
       = (csvCandidates c2content).length) ∧
    ((∀ (row : Row) (c : Candidate), parse_csv_row row = some c →
        c.amount.isSome = true ∧ c.description.isSome = true) ∧
     (import_transactions c2session (csvCandidates c2content)
        (import_transactions c2session (csvCandidates c2content) emptyDB 0).1 1).2.successful
       = 0 ∧
     (import_transactions c2session (csvCandidates c2content)
        (import_transactions c2session (csvCandidates c2content) emptyDB 0).1 1).2.duplicate
       = (import_transactions c2session (csvCandidates c2content)
            (import_transactions c2session (csvCandidates c2content) emptyDB 0).1 1).2.total ∧
     (import_transactions c2session (csvCandidates c2content)
        (import_transactions c2session (csvCandidates c2content) emptyDB 0).1 1).2.total
       = (csvCandidates c2content).length) :=
  ⟨⟨by decide, by decide, by decide⟩,
   c5_reimport_all_duplicates c2session 7 (csvCandidates c2content) emptyDB 0 1
     (by decide) (by decide) (by decide)⟩

end ExpanseTracker
